import Mathlib

/-!
Verification development for the credential lifecycle manager of the
outlook-events-portal repository (package `authentication`, file
`src/authentication/auth.go`, together with its consumer in `src/main.go`).

The Go code is shallowly embedded as pure Lean functions.  Network I/O is
modelled by passing the outcome of the provider call (`HttpResult`) as an
explicit argument: a call either fails at the transport level, or yields a
status code together with the result of JSON-decoding the body into a
`GraphAuthentication` value.  Machine integers (`uint16 ExpiresIn`) are
modelled as `Nat` with explicit `% 65536` wraparound where the Go code
performs `uint16` arithmetic.  Time is modelled as `Nat` seconds.
-/

namespace OutlookAuth

/-- Mirror of the Go struct `GraphAuthentication` (auth.go lines 26-32).
`ExpiresIn` is a `uint16` in Go; it is modelled as a `Nat` and the one place
where `uint16` arithmetic matters (`refreshTokenManager`'s sleep computation)
applies the wraparound explicitly. -/
structure GraphAuthentication where
  Token : String
  Scope : String
  ExpiresIn : Nat
  AccessToken : String
  RefreshToken : String
deriving Repr, DecidableEq

/-- The zero value `GraphAuthentication{}` used by the Go code to clear
credentials. -/
def emptyGraphAuthentication : GraphAuthentication :=
  { Token := "", Scope := "", ExpiresIn := 0, AccessToken := "", RefreshToken := "" }

/-- Mirror of the Go struct `CredentialStorage` (auth.go lines 19-24), minus
the mutex, which only serializes access and carries no data.
`expiresTimestamp` is an absolute time in seconds. -/
structure CredentialStorage where
  credentials : GraphAuthentication
  expiresTimestamp : Nat
  authenticated : Bool
deriving Repr, DecidableEq

/-- The zero value `CredentialStorage{}` (fresh store, unauthenticated). -/
def emptyCredentialStorage : CredentialStorage :=
  { credentials := emptyGraphAuthentication, expiresTimestamp := 0, authenticated := false }

/-- Outcome of JSON-decoding a provider response body into
`GraphAuthentication` (the `json.NewDecoder(resp.Body).Decode(&graphAuth)`
calls): either a decoded value or a decode error. -/
inductive DecodeResult where
  | ok (g : GraphAuthentication)
  | fail
deriving Repr, DecidableEq

/-- Outcome of `http.PostForm` against the provider token endpoint:
either a transport-level error (`err != nil`), or a response carrying an HTTP
status code and the decode outcome of its body. -/
inductive HttpResult where
  | transportError
  | response (status : Nat) (body : DecodeResult)
deriving Repr, DecidableEq

/-- Mirror of `CredentialStorage.GetAccessToken` (auth.go lines 120-127):
copy the access token and the authenticated flag under the lock and return
them.  It is a pure read: it never fails and does not modify the store. -/
def GetAccessToken (s : CredentialStorage) : String × Bool :=
  (s.credentials.AccessToken, s.authenticated)

/-- Result of one call to `refreshTokenHandler`: the store afterwards, whether
the Go function returned a non-nil `error`, and whether it called
`openLoginPage`. -/
structure RefreshOutcome where
  store : CredentialStorage
  isErr : Bool
  loginPageOpened : Bool
deriving Repr, DecidableEq

/-- Mirror of `refreshTokenHandler` (auth.go lines 224-275), as a function of
the store, the current time `now`, and the provider-call outcome `resp`:

* transport error: log and `return nil` — the store is left untouched;
* `resp.StatusCode != 200`: set `credentials = GraphAuthentication{}` and
  `authenticated = false` (the `expiresTimestamp` field is not reset), call
  `openLoginPage`, and `return nil`;
* decode failure on a 200 response: clear the same two fields, call
  `openLoginPage`, and return the (non-nil) decode error;
* success: replace all five credential fields with the decoded value, set
  `expiresTimestamp = now + ExpiresIn`, set `authenticated = true`,
  `return nil`. -/
def refreshTokenHandler (s : CredentialStorage) (now : Nat) (resp : HttpResult) :
    RefreshOutcome :=
  match resp with
  | .transportError =>
    { store := s, isErr := false, loginPageOpened := false }
  | .response status body =>
    if status ≠ 200 then
      { store := { s with credentials := emptyGraphAuthentication, authenticated := false },
        isErr := false, loginPageOpened := true }
    else
      match body with
      | .fail =>
        { store := { s with credentials := emptyGraphAuthentication, authenticated := false },
          isErr := true, loginPageOpened := true }
      | .ok g =>
        { store := { credentials := g, expiresTimestamp := now + g.ExpiresIn,
                     authenticated := true },
          isErr := false, loginPageOpened := false }

/-- Result of one invocation of `callbackHandler`: the store afterwards, the
redirect target and HTTP status it answers with, and whether it launched the
refresh manager goroutine. -/
structure CallbackResult where
  store : CredentialStorage
  redirect : String
  redirectStatus : Nat
  managerStartRequested : Bool
deriving Repr, DecidableEq

/-- Mirror of `callbackHandler` (auth.go lines 277-326) as a function of the
store, the current time, and the provider-call outcome for the
authorization-code exchange.  Note that the Go handler never inspects
`resp.StatusCode`: any response whose body decodes — including a non-2xx JSON
error body — is committed to the store with `authenticated = true` and
answered with a 303 redirect to `/success`.  Transport errors and decode
failures answer with a 400 redirect to `/error` and leave the store
untouched. -/
def callbackHandler (s : CredentialStorage) (now : Nat) (resp : HttpResult) :
    CallbackResult :=
  match resp with
  | .transportError =>
    { store := s, redirect := "/error", redirectStatus := 400, managerStartRequested := false }
  | .response _ body =>
    match body with
    | .fail =>
      { store := s, redirect := "/error", redirectStatus := 400, managerStartRequested := false }
    | .ok g =>
      { store := { credentials := g, expiresTimestamp := now + g.ExpiresIn,
                   authenticated := true },
        redirect := "/success", redirectStatus := 303, managerStartRequested := true }

/-- Mirror of the sleep computation in `refreshTokenManager` (auth.go line
144): `time.Duration(credentials.credentials.ExpiresIn-60) * time.Second`.
`ExpiresIn` has type `uint16`, so the subtraction wraps modulo `2^16`; for a
store whose credential satisfies `ExpiresIn < 65536` this is exactly the Go
value, in seconds. -/
def managerSleepSeconds (s : CredentialStorage) : Nat :=
  (s.credentials.ExpiresIn + 65536 - 60) % 65536

/-- Mirror of the loop of `refreshTokenManager` (auth.go lines 136-158) run
against a trace of refresh events, each event supplying the time of the
attempt and the provider-call outcome.  Each iteration persists (a no-op on
the in-memory state), sleeps, and calls `refreshTokenHandler`; if the handler
returns a non-nil error the manager clears its running flag and returns
(second component `true` = stopped on error, and the remaining events are
never processed); otherwise the loop continues.  An exhausted trace returns
`false` (the loop is still running). -/
def refreshTokenManagerRun (s : CredentialStorage) :
    List (Nat × HttpResult) → CredentialStorage × Bool
  | [] => (s, false)
  | (now, resp) :: rest =>
    let r := refreshTokenHandler s now resp
    if r.isErr then (r.store, true)
    else refreshTokenManagerRun r.store rest

/-- Result of `authentication.Run` (auth.go lines 93-118): the store after the
startup logic, whether the refresh-manager goroutine was started, the
`*CredentialStorage` value returned to the caller (`none` models a `nil`
pointer), and whether the interactive login path (`openLoginPage`) was
triggered. -/
structure RunResult where
  store : CredentialStorage
  managerStarted : Bool
  handle : Option CredentialStorage
  loginOpened : Bool
deriving Repr, DecidableEq

/-- The part of `Run` (auth.go lines 106-117) after `loadExistingCredentials`
has produced the initial store `s0`: if the loaded refresh token is non-empty,
attempt one silent refresh with outcome `resp`; when the handler returns a nil
error, start the refresh manager and return `nil`; otherwise fall through to
`openLoginPage` and return `&graphCredentialStorage`. -/
def runFromStore (s0 : CredentialStorage) (now : Nat) (resp : HttpResult) : RunResult :=
  if s0.credentials.RefreshToken.length > 0 then
    let r := refreshTokenHandler s0 now resp
    if r.isErr = false then
      { store := r.store, managerStarted := true, handle := none,
        loginOpened := r.loginPageOpened }
    else
      { store := r.store, managerStarted := false, handle := some r.store,
        loginOpened := true }
  else
    { store := s0, managerStarted := false, handle := some s0, loginOpened := true }

/-! ### Persistence (auth.go lines 75-91 and 161-194)

`persistCredentials` TOML-encodes the five-field credential struct and writes
it to `credentials.toml` under the storage path; `loadExistingCredentials`
reads that file back and TOML-decodes it into a freshly zeroed store.  The
Go struct carries no `toml` tags, so the keys are the field names `Token`,
`Scope`, `ExpiresIn`, `AccessToken`, `RefreshToken`, one `key = value` line
each, strings quoted with basic-string escaping.  The encoder and the
key-driven decoder for this fixed schema are embedded below; the file is
modelled as its list of lines (string escaping guarantees an encoded value
contains no raw newline, so the line structure is preserved by the file
round trip). -/

/-- Decimal digit character for `n < 10`. -/
def digitOf (n : Nat) : Char :=
  match n with
  | 0 => '0' | 1 => '1' | 2 => '2' | 3 => '3' | 4 => '4'
  | 5 => '5' | 6 => '6' | 7 => '7' | 8 => '8' | _ => '9'

/-- Decimal rendering of a natural number, most significant digit first. -/
def natToChars (n : Nat) : List Char :=
  if _h : n < 10 then [digitOf n]
  else natToChars (n / 10) ++ [digitOf (n % 10)]
termination_by n
decreasing_by exact Nat.div_lt_self (by omega) (by omega)

/-- Numeric value of a digit character. -/
def charVal (c : Char) : Nat := c.toNat - 48

/-- Decimal parsing of a digit string (left fold). -/
def charsToNat (cs : List Char) : Nat :=
  cs.foldl (fun a c => a * 10 + charVal c) 0

/-- Escape one character as in a TOML basic string. -/
def escChar (c : Char) : List Char :=
  if c = '"' then ['\\', '"']
  else if c = '\\' then ['\\', '\\']
  else if c = '\n' then ['\\', 'n']
  else if c = '\t' then ['\\', 't']
  else if c = '\r' then ['\\', 'r']
  else [c]

/-- Escape a character sequence for a TOML basic string. -/
def escape : List Char → List Char
  | [] => []
  | c :: cs => escChar c ++ escape cs

/-- Inverse of `escChar` on the character following a backslash. -/
def unescChar (d : Char) : Char :=
  if d = 'n' then '\n' else if d = 't' then '\t' else if d = 'r' then '\r' else d

/-- Unescape a TOML basic-string body. -/
def unescape : List Char → List Char
  | [] => []
  | [c] => [c]
  | c :: d :: cs =>
    if c = '\\' then unescChar d :: unescape cs
    else c :: unescape (d :: cs)

/-- Key (with the ` = ` separator) of the `Token` line. -/
def tokenKey : List Char := ['T', 'o', 'k', 'e', 'n', ' ', '=', ' ']

/-- Key of the `Scope` line. -/
def scopeKey : List Char := ['S', 'c', 'o', 'p', 'e', ' ', '=', ' ']

/-- Key of the `ExpiresIn` line. -/
def expiresKey : List Char :=
  ['E', 'x', 'p', 'i', 'r', 'e', 's', 'I', 'n', ' ', '=', ' ']

/-- Key of the `AccessToken` line. -/
def accessKey : List Char :=
  ['A', 'c', 'c', 'e', 's', 's', 'T', 'o', 'k', 'e', 'n', ' ', '=', ' ']

/-- Key of the `RefreshToken` line. -/
def refreshKey : List Char :=
  ['R', 'e', 'f', 'r', 'e', 's', 'h', 'T', 'o', 'k', 'e', 'n', ' ', '=', ' ']

/-- Quote a string value as a TOML basic string. -/
def quoteChars (v : List Char) : List Char := '"' :: (escape v ++ ['"'])

/-- TOML encoding of a `GraphAuthentication` value, as its list of lines, in
Go struct-field order (the order `toml.Encoder.Encode` emits). -/
def encodeCredentials (c : GraphAuthentication) : List (List Char) :=
  [ tokenKey ++ quoteChars c.Token.toList,
    scopeKey ++ quoteChars c.Scope.toList,
    expiresKey ++ natToChars c.ExpiresIn,
    accessKey ++ quoteChars c.AccessToken.toList,
    refreshKey ++ quoteChars c.RefreshToken.toList ]

/-- Strip the key (with separator) from the front of a line; `none` when the
line is for a different key. -/
def dropKey : List Char → List Char → Option (List Char)
  | [], rest => some rest
  | _ :: _, [] => none
  | k :: ks, c :: cs => if c = k then dropKey ks cs else none

/-- Parse a quoted basic-string value. -/
def parseQuoted : List Char → Option (List Char)
  | '"' :: rest =>
    match rest.reverse with
    | '"' :: mid => some (unescape mid.reverse)
    | _ => none
  | _ => none

/-- Apply one line of the persisted file to a partially decoded credential:
try each known key in turn, setting the matching field (the behaviour of the
key-driven TOML decoder on this schema); unrecognized lines are ignored. -/
def applyLine (g : GraphAuthentication) (line : List Char) : GraphAuthentication :=
  match dropKey tokenKey line with
  | some v =>
    match parseQuoted v with
    | some s => { g with Token := String.mk s }
    | none => g
  | none =>
    match dropKey scopeKey line with
    | some v =>
      match parseQuoted v with
      | some s => { g with Scope := String.mk s }
      | none => g
    | none =>
      match dropKey expiresKey line with
      | some v => { g with ExpiresIn := charsToNat v }
      | none =>
        match dropKey accessKey line with
        | some v =>
          match parseQuoted v with
          | some s => { g with AccessToken := String.mk s }
          | none => g
        | none =>
          match dropKey refreshKey line with
          | some v =>
            match parseQuoted v with
            | some s => { g with RefreshToken := String.mk s }
            | none => g
          | none => g

/-- TOML decoding of a persisted credential file (list of lines) into a
`GraphAuthentication`, starting from the zero value the Go code decodes
into. -/
def decodeCredentials (lines : List (List Char)) : GraphAuthentication :=
  lines.foldl applyLine emptyGraphAuthentication

/-- Mirror of `CredentialStorage.persistCredentials` (auth.go lines 161-194):
a no-op when the path is empty (`len(path) == 0`), otherwise it writes the
TOML encoding of the current credentials to `credentials.toml` under `path`.
The produced file content (list of lines) is returned; `none` models "nothing
written". -/
def persistCredentials (path : String) (c : GraphAuthentication) :
    Option (List (List Char)) :=
  if path.length = 0 then none
  else some (encodeCredentials c)

/-- Mirror of `loadExistingCredentials` (auth.go lines 75-91): reset the store
to the zero value; when persistence is disabled, stop there; otherwise read
the credentials file (`none` models a read error, which leaves the zeroed
credentials in place since decoding an empty string is a no-op) and TOML-decode
its content into the store's `credentials` field only.  The `authenticated`
flag and the expiry timestamp are never touched. -/
def loadExistingCredentials (persistEnabled : Bool) (file : Option (List (List Char))) :
    CredentialStorage :=
  if persistEnabled = false then emptyCredentialStorage
  else
    match file with
    | none => emptyCredentialStorage
    | some lines =>
      { emptyCredentialStorage with credentials := decodeCredentials lines }

/-- Mirror of the full `Run` (auth.go lines 93-118): load the persisted
credentials, then run the startup refresh decision. -/
def Run (persistEnabled : Bool) (file : Option (List (List Char))) (now : Nat)
    (resp : HttpResult) : RunResult :=
  runFromStore (loadExistingCredentials persistEnabled file) now resp

/-- States of the Credential Store reachable through its operations: the
startup load, a refresh-token exchange, and an authorization-code exchange via
the callback handler (each at an arbitrary time and with an arbitrary
provider-call outcome). -/
inductive Reaches : CredentialStorage → Prop where
  | load (p : Bool) (f : Option (List (List Char))) :
      Reaches (loadExistingCredentials p f)
  | refresh (s : CredentialStorage) (now : Nat) (resp : HttpResult) :
      Reaches s → Reaches (refreshTokenHandler s now resp).store
  | callback (s : CredentialStorage) (now : Nat) (resp : HttpResult) :
      Reaches s → Reaches (callbackHandler s now resp).store

/-- Mirror of the access-token read at the top of `fetchEventsFromOutlook`
(main.go lines 162-169), performed through the handle that `Run` returned
(main.go line 129 stores it in the package-level `graphCredentials`).  A `nil`
handle makes `graphCredentials.GetAccessToken()` dereference a nil pointer
(`credentials.lock.Lock()` panics), modelled as `none`: no `(token, ok)` pair
is ever produced. -/
def fetchEventsAccessTokenRead (h : Option CredentialStorage) : Option (String × Bool) :=
  match h with
  | none => none
  | some s => some (GetAccessToken s)

/-! ### Helper lemmas for the persistence round trip -/

theorem charVal_digitOf : ∀ m, m < 10 → charVal (digitOf m) = m := by decide

theorem charsToNat_append (xs : List Char) (d : Char) :
    charsToNat (xs ++ [d]) = charsToNat xs * 10 + charVal d := by
  simp [charsToNat, List.foldl_append]

theorem charsToNat_natToChars (n : Nat) : charsToNat (natToChars n) = n := by
  induction n using Nat.strong_induction_on with
  | _ n ih =>
    rw [natToChars]
    by_cases h : n < 10
    · simp only [h, dif_pos]
      simpa [charsToNat] using charVal_digitOf n h
    · simp only [h, dif_neg, not_false_iff]
      rw [charsToNat_append, ih (n / 10) (Nat.div_lt_self (by omega) (by omega)),
        charVal_digitOf (n % 10) (Nat.mod_lt n (by omega))]
      omega

theorem escChar_ne_nil (c : Char) : escChar c ≠ [] := by
  unfold escChar
  repeat' split
  all_goals simp

theorem escape_eq_nil {cs : List Char} (h : escape cs = []) : cs = [] := by
  cases cs with
  | nil => rfl
  | cons c cs =>
    rw [escape, List.append_eq_nil] at h
    exact absurd h.1 (escChar_ne_nil c)

theorem unescape_escape (cs : List Char) : unescape (escape cs) = cs := by
  induction cs with
  | nil => rfl
  | cons c cs ih =>
    by_cases h1 : c = '"'
    · subst h1; simpa [escape, escChar, unescape, unescChar] using ih
    · by_cases h2 : c = '\\'
      · subst h2; simpa [escape, escChar, unescape, unescChar] using ih
      · by_cases h3 : c = '\n'
        · subst h3; simpa [escape, escChar, unescape, unescChar] using ih
        · by_cases h4 : c = '\t'
          · subst h4; simpa [escape, escChar, unescape, unescChar] using ih
          · by_cases h5 : c = '\r'
            · subst h5; simpa [escape, escChar, unescape, unescChar] using ih
            · have hesc : escChar c = [c] := by simp [escChar, h1, h2, h3, h4, h5]
              rw [escape, hesc]
              cases hrest : escape cs with
              | nil =>
                have : cs = [] := escape_eq_nil hrest
                subst this
                simp [unescape]
              | cons d rest =>
                simp only [List.cons_append, List.nil_append]
                rw [unescape, if_neg h2, ← hrest, ih]

theorem dropKey_append (key rest : List Char) : dropKey key (key ++ rest) = some rest := by
  induction key with
  | nil => rfl
  | cons k ks ih => simp [dropKey, ih]

theorem dropKey_head_ne {k c : Char} (ks cs : List Char) (h : c ≠ k) :
    dropKey (k :: ks) (c :: cs) = none := by
  simp [dropKey, h]

theorem parseQuoted_quoteChars (v : List Char) :
    parseQuoted (quoteChars v) = some v := by
  rw [quoteChars, parseQuoted]
  rw [List.reverse_append]
  simp [unescape_escape]

theorem mk_toList (s : String) : String.mk s.toList = s := rfl

theorem dropKey_token_scope (x : List Char) : dropKey tokenKey (scopeKey ++ x) = none := by
  rw [tokenKey, scopeKey, List.cons_append]
  exact dropKey_head_ne _ _ (by decide)

theorem dropKey_token_expires (x : List Char) : dropKey tokenKey (expiresKey ++ x) = none := by
  rw [tokenKey, expiresKey, List.cons_append]
  exact dropKey_head_ne _ _ (by decide)

theorem dropKey_token_access (x : List Char) : dropKey tokenKey (accessKey ++ x) = none := by
  rw [tokenKey, accessKey, List.cons_append]
  exact dropKey_head_ne _ _ (by decide)

theorem dropKey_token_refresh (x : List Char) : dropKey tokenKey (refreshKey ++ x) = none := by
  rw [tokenKey, refreshKey, List.cons_append]
  exact dropKey_head_ne _ _ (by decide)

theorem dropKey_scope_expires (x : List Char) : dropKey scopeKey (expiresKey ++ x) = none := by
  rw [scopeKey, expiresKey, List.cons_append]
  exact dropKey_head_ne _ _ (by decide)

theorem dropKey_scope_access (x : List Char) : dropKey scopeKey (accessKey ++ x) = none := by
  rw [scopeKey, accessKey, List.cons_append]
  exact dropKey_head_ne _ _ (by decide)

theorem dropKey_scope_refresh (x : List Char) : dropKey scopeKey (refreshKey ++ x) = none := by
  rw [scopeKey, refreshKey, List.cons_append]
  exact dropKey_head_ne _ _ (by decide)

theorem dropKey_expires_access (x : List Char) : dropKey expiresKey (accessKey ++ x) = none := by
  rw [expiresKey, accessKey, List.cons_append]
  exact dropKey_head_ne _ _ (by decide)

theorem dropKey_expires_refresh (x : List Char) : dropKey expiresKey (refreshKey ++ x) = none := by
  rw [expiresKey, refreshKey, List.cons_append]
  exact dropKey_head_ne _ _ (by decide)

theorem dropKey_access_refresh (x : List Char) : dropKey accessKey (refreshKey ++ x) = none := by
  rw [accessKey, refreshKey, List.cons_append]
  exact dropKey_head_ne _ _ (by decide)

theorem applyLine_token (g : GraphAuthentication) (v : List Char) :
    applyLine g (tokenKey ++ quoteChars v) = { g with Token := String.mk v } := by
  rw [applyLine]
  simp only [dropKey_append, parseQuoted_quoteChars]

theorem applyLine_scope (g : GraphAuthentication) (v : List Char) :
    applyLine g (scopeKey ++ quoteChars v) = { g with Scope := String.mk v } := by
  rw [applyLine]
  simp only [dropKey_token_scope, dropKey_append, parseQuoted_quoteChars]

theorem applyLine_expires (g : GraphAuthentication) (v : List Char) :
    applyLine g (expiresKey ++ v) = { g with ExpiresIn := charsToNat v } := by
  rw [applyLine]
  simp only [dropKey_token_expires, dropKey_scope_expires, dropKey_append]

theorem applyLine_access (g : GraphAuthentication) (v : List Char) :
    applyLine g (accessKey ++ quoteChars v) = { g with AccessToken := String.mk v } := by
  rw [applyLine]
  simp only [dropKey_token_access, dropKey_scope_access, dropKey_expires_access,
    dropKey_append, parseQuoted_quoteChars]

theorem applyLine_refresh (g : GraphAuthentication) (v : List Char) :
    applyLine g (refreshKey ++ quoteChars v) = { g with RefreshToken := String.mk v } := by
  rw [applyLine]
  simp only [dropKey_token_refresh, dropKey_scope_refresh, dropKey_expires_refresh,
    dropKey_access_refresh, dropKey_append, parseQuoted_quoteChars]

theorem decode_encode (c : GraphAuthentication) :
    decodeCredentials (encodeCredentials c) = c := by
  rw [decodeCredentials, encodeCredentials]
  simp only [List.foldl_cons, List.foldl_nil, applyLine_token, applyLine_scope,
    applyLine_expires, applyLine_access, applyLine_refresh, charsToNat_natToChars,
    mk_toList]

/-! ### Concrete fixtures used by counterexamples and witnesses -/

/-- A sample provider credential. -/
def sampleCredential : GraphAuthentication :=
  { Token := "Bearer", Scope := "Calendars.Read", ExpiresIn := 3600,
    AccessToken := "tok1", RefreshToken := "rt-123" }

/-- A store that has completed a successful exchange and is authenticated. -/
def sampleAuthedStore : CredentialStorage :=
  { credentials := sampleCredential, expiresTimestamp := 500, authenticated := true }

/-! ### Claim theorems -/

/-- Claim C1, counterexample: the claim states that after EVERY failed refresh
exchange — including a transport failure — the store reports
`authenticated = false` and an empty access token.  On a transport failure
(`http.PostForm` returns an error) `refreshTokenHandler` logs and returns
without touching the store: starting from an authenticated store, the store is
still authenticated with its old non-empty access token. -/
theorem c1_transport_failure_preserves_store :
    (refreshTokenHandler sampleAuthedStore 9 .transportError).store.authenticated = true ∧
    (refreshTokenHandler sampleAuthedStore 9 .transportError).store.credentials.AccessToken
      = "tok1" := by
  constructor <;> rfl

/-- Claim C1, amended: for every refresh exchange that fails with a
non-success HTTP status or with a malformed (non-decodable) response body, the
store immediately afterwards reports `authenticated = false` and an empty
access token, regardless of its contents before the attempt.  (A transport
failure, by contrast, leaves the store unchanged.) -/
theorem c1_refresh_failure_clears_store (s : CredentialStorage) (now : Nat)
    (status : Nat) (body : DecodeResult) (h : status ≠ 200 ∨ body = .fail) :
    (refreshTokenHandler s now (.response status body)).store.authenticated = false ∧
    (refreshTokenHandler s now (.response status body)).store.credentials.AccessToken
      = "" := by
  rcases h with h | h
  · simp [refreshTokenHandler, h, emptyGraphAuthentication]
  · subst h
    by_cases hs : status = 200 <;>
      simp [refreshTokenHandler, hs, emptyGraphAuthentication]

/-- Witness for C1: a rejected refresh (status 400) against an authenticated
store clears it. -/
theorem c1_refresh_failure_clears_store_witness :
    (refreshTokenHandler sampleAuthedStore 9
        (.response 400 (.ok emptyGraphAuthentication))).store.authenticated = false ∧
    (refreshTokenHandler sampleAuthedStore 9
        (.response 400 (.ok emptyGraphAuthentication))).store.credentials.AccessToken
      = "" :=
  c1_refresh_failure_clears_store sampleAuthedStore 9 400
    (.ok emptyGraphAuthentication) (Or.inl (by decide))

/-- Claim C2, counterexample: the claim states the refresh loop stops after
ANY failed refresh and never executes its body again.  After a provider
rejection (status 400) the handler returns a nil error, so the loop continues:
on the trace below the rejected first attempt is followed by a second loop
iteration that processes the next response and re-authenticates the store, and
the run reports that the manager never stopped. -/
theorem c2_manager_continues_after_rejection :
    (refreshTokenManagerRun sampleAuthedStore
        [(0, .response 400 (.ok emptyGraphAuthentication)),
         (10, .response 200 (.ok sampleCredential))]).2 = false ∧
    (refreshTokenManagerRun sampleAuthedStore
        [(0, .response 400 (.ok emptyGraphAuthentication)),
         (10, .response 200 (.ok sampleCredential))]).1.authenticated = true := by
  constructor <;> rfl

/-- Claim C2, amended: the Refresh Loop Supervisor transitions to its terminal
stopped state — ignoring every remaining refresh event — exactly when a
refresh attempt fails to decode the 200 response body (the only case in which
`refreshTokenHandler` returns a non-nil error).  A transport failure leaves
the store untouched and the loop running; a provider rejection (non-200
status) clears the store but also leaves the loop running. -/
theorem c2_manager_stop_characterization (s : CredentialStorage) (now : Nat)
    (rest : List (Nat × HttpResult)) :
    refreshTokenManagerRun s ((now, .response 200 .fail) :: rest) =
      ({ s with credentials := emptyGraphAuthentication, authenticated := false }, true) ∧
    refreshTokenManagerRun s ((now, .transportError) :: rest) =
      refreshTokenManagerRun s rest ∧
    ∀ (st : Nat) (b : DecodeResult), st ≠ 200 →
      refreshTokenManagerRun s ((now, .response st b) :: rest) =
        refreshTokenManagerRun
          { s with credentials := emptyGraphAuthentication, authenticated := false } rest := by
  refine ⟨?_, ?_, ?_⟩
  · simp [refreshTokenManagerRun, refreshTokenHandler]
  · simp [refreshTokenManagerRun, refreshTokenHandler]
  · intro st b h
    simp [refreshTokenManagerRun, refreshTokenHandler, h]

/-- Witness for C2: the characterization applied to a concrete rejected
refresh. -/
theorem c2_manager_stop_characterization_witness :
    refreshTokenManagerRun sampleAuthedStore
        [(3, .response 400 (.ok emptyGraphAuthentication))] =
      refreshTokenManagerRun
        { sampleAuthedStore with
          credentials := emptyGraphAuthentication,
          authenticated := false } [] :=
  (c2_manager_stop_characterization sampleAuthedStore 3 []).2.2 400
    (.ok emptyGraphAuthentication) (by decide)

/-- Claim C3 (code bug): at a startup whose loaded credential has a non-empty
refresh token and whose silent refresh is rejected by the provider with a 400
response, the store does stay `authenticated = false` and the interactive
login path is triggered — but, contrary to the claim and to the comment in
`Run` ("If token refresh succeeds, start the refresh manager", auth.go line
109), the refresh manager goroutine IS started, because `refreshTokenHandler`
returns a nil error for a non-200 provider response (auth.go line 250).  This
theorem evaluates the embedded `Run` at the failing input. -/
theorem c3_rejected_startup_refresh_starts_manager :
    (Run true (some (encodeCredentials sampleCredential)) 0
        (.response 400 (.ok emptyGraphAuthentication))).store.authenticated = false ∧
    (Run true (some (encodeCredentials sampleCredential)) 0
        (.response 400 (.ok emptyGraphAuthentication))).loginOpened = true ∧
    (Run true (some (encodeCredentials sampleCredential)) 0
        (.response 400 (.ok emptyGraphAuthentication))).managerStarted = true := by
  refine ⟨?_, ?_, ?_⟩ <;> decide

/-- Claim C4, counterexample: the claim states that every callback whose
exchange fails — in particular every non-2xx provider response — redirects to
`/error` and leaves the store unauthenticated.  `callbackHandler` never
inspects the status code: a 400 response whose JSON error body decodes (into
the zero credential) is committed with `authenticated = true` and answered
with a redirect to `/success`. -/
theorem c4_non2xx_callback_redirects_success :
    (callbackHandler emptyCredentialStorage 0
        (.response 400 (.ok emptyGraphAuthentication))).redirect = "/success" ∧
    (callbackHandler emptyCredentialStorage 0
        (.response 400 (.ok emptyGraphAuthentication))).store.authenticated = true := by
  constructor <;> rfl

/-- Claim C4, amended: the callback handler 400-redirects to `/error`, leaving
the Credential Store unchanged, exactly on a transport failure or a
non-decodable response body; every response whose body decodes — regardless of
its HTTP status, including non-2xx — is treated as success: the store is
replaced, `authenticated` is set, and the handler 303-redirects to
`/success`. -/
theorem c4_callback_redirect_characterization (s : CredentialStorage) (now : Nat)
    (resp : HttpResult) :
    ((resp = .transportError ∨ ∃ st, resp = .response st .fail) →
      (callbackHandler s now resp).redirect = "/error" ∧
      (callbackHandler s now resp).redirectStatus = 400 ∧
      (callbackHandler s now resp).store = s) ∧
    (∀ (st : Nat) (g : GraphAuthentication), resp = .response st (.ok g) →
      (callbackHandler s now resp).redirect = "/success" ∧
      (callbackHandler s now resp).redirectStatus = 303 ∧
      (callbackHandler s now resp).store.authenticated = true) := by
  constructor
  · rintro (rfl | ⟨st, rfl⟩) <;> simp [callbackHandler]
  · rintro st g rfl
    simp [callbackHandler]

/-- Witness for C4: a transport failure on the exchange redirects to `/error`
with the store untouched. -/
theorem c4_callback_redirect_characterization_witness :
    (callbackHandler emptyCredentialStorage 1 .transportError).redirect = "/error" ∧
    (callbackHandler emptyCredentialStorage 1 .transportError).redirectStatus = 400 ∧
    (callbackHandler emptyCredentialStorage 1 .transportError).store
      = emptyCredentialStorage :=
  (c4_callback_redirect_characterization emptyCredentialStorage 1 .transportError).1
    (Or.inl rfl)

/-- Claim C5, counterexample: the claim states the computed sleep is clamped
to 0 for `expires_in_seconds = 30`.  The Go expression
`time.Duration(ExpiresIn-60) * time.Second` subtracts in `uint16`, which wraps
instead of clamping: for `ExpiresIn = 30` the computed sleep is 65506 seconds,
not 0. -/
theorem c5_sleep_at_expires_30 :
    managerSleepSeconds
        { credentials := { emptyGraphAuthentication with ExpiresIn := 30 },
          expiresTimestamp := 0, authenticated := true } = 65506 ∧
    (65506 : Nat) ≠ 0 := by
  constructor <;> decide

/-- Claim C5, amended: the sleep duration is computed with unsigned 16-bit
wraparound, `(expires_in - 60) mod 2^16` seconds.  It is never negative (it is
a natural number by construction), but it is not clamped to zero: for
`expires_in < 60` it equals `expires_in + 65476` (in particular 65506 for
`expires_in = 30`), and only for `expires_in ≥ 60` does it equal
`expires_in - 60`. -/
theorem c5_sleep_wraparound (s : CredentialStorage)
    (h : s.credentials.ExpiresIn < 65536) :
    managerSleepSeconds s =
      if 60 ≤ s.credentials.ExpiresIn then s.credentials.ExpiresIn - 60
      else s.credentials.ExpiresIn + 65476 := by
  unfold managerSleepSeconds
  split <;> omega

/-- Witness for C5: the wraparound formula evaluated at `ExpiresIn = 30`. -/
theorem c5_sleep_wraparound_witness :
    managerSleepSeconds
        { credentials := { emptyGraphAuthentication with ExpiresIn := 30 },
          expiresTimestamp := 0, authenticated := true } =
      if 60 ≤ (30 : Nat) then 30 - 60 else 30 + 65476 :=
  c5_sleep_wraparound
    { credentials := { emptyGraphAuthentication with ExpiresIn := 30 },
      expiresTimestamp := 0, authenticated := true } (by decide)

/-- Claim C6, counterexample: the claim's invariant says every reachable
authenticated state has a non-empty access token.  The state reached by a
startup load followed by a callback whose 400 response body decodes to the
zero credential is authenticated with an empty access token. -/
theorem c6_reachable_authenticated_empty_token :
    Reaches (callbackHandler (loadExistingCredentials false none) 0
        (.response 400 (.ok emptyGraphAuthentication))).store ∧
    (callbackHandler (loadExistingCredentials false none) 0
        (.response 400 (.ok emptyGraphAuthentication))).store.authenticated = true ∧
    (callbackHandler (loadExistingCredentials false none) 0
        (.response 400 (.ok emptyGraphAuthentication))).store.credentials.AccessToken
      = "" :=
  ⟨Reaches.callback _ 0 _ (Reaches.load false none), rfl, rfl⟩

/-- Claim C6, amended: in every state the Credential Store can reach through
its operations, `authenticated = true` implies the stored expiry equals some
exchange time plus the stored credential's `expires_in_seconds` (both success
paths set `expiresTimestamp = now + ExpiresIn` atomically with the credential).
The non-empty-access-token half of the claimed invariant does not hold, because
the callback handler accepts decodable non-2xx bodies with empty fields. -/
theorem c6_reachable_expiry_invariant (s : CredentialStorage) (h : Reaches s) :
    s.authenticated = true →
      ∃ t, s.expiresTimestamp = t + s.credentials.ExpiresIn := by
  induction h with
  | load p f =>
    intro ha
    exact absurd ha (by
      cases p <;> cases f <;>
        simp [loadExistingCredentials, emptyCredentialStorage])
  | refresh s now resp hr ih =>
    intro ha
    cases resp with
    | transportError => exact ih ha
    | response st b =>
      by_cases hst : st = 200
      · subst hst
        cases b with
        | fail => simp [refreshTokenHandler] at ha
        | ok g => exact ⟨now, rfl⟩
      · simp [refreshTokenHandler, hst] at ha
  | callback s now resp hr ih =>
    intro ha
    cases resp with
    | transportError => exact ih ha
    | response st b =>
      cases b with
      | fail => exact ih ha
      | ok g => exact ⟨now, rfl⟩

/-- Witness for C6: the invariant applied to the authenticated state reached
by one successful refresh from a fresh store. -/
theorem c6_reachable_expiry_invariant_witness :
    ∃ t, (refreshTokenHandler emptyCredentialStorage 5
        (.response 200 (.ok sampleCredential))).store.expiresTimestamp =
      t + (refreshTokenHandler emptyCredentialStorage 5
        (.response 200 (.ok sampleCredential))).store.credentials.ExpiresIn :=
  c6_reachable_expiry_invariant _
    (Reaches.refresh _ 5 _ (Reaches.load false none)) rfl

/-- Claim C7 (confirmed): after every successful exchange — a refresh exchange
with a 200 decodable response, or a callback exchange whose body decodes —
reading the store through `GetAccessToken` with no intervening operation
returns exactly the access token just written together with
`authenticated = true`; the read is a pure copy of the two fields and does not
modify the store. -/
theorem c7_read_after_successful_exchange (s : CredentialStorage) (now : Nat)
    (g : GraphAuthentication) (st : Nat) :
    GetAccessToken (refreshTokenHandler s now (.response 200 (.ok g))).store
      = (g.AccessToken, true) ∧
    GetAccessToken (callbackHandler s now (.response st (.ok g))).store
      = (g.AccessToken, true) := by
  constructor <;> simp [GetAccessToken, refreshTokenHandler, callbackHandler]

/-- Claim C8 (confirmed): for every credential value and every non-empty
storage path, saving with `persistCredentials` and loading the written file
back with `loadExistingCredentials` (persistence enabled) yields a credential
equal in all five fields to the one saved. -/
theorem c8_persist_load_roundtrip (c : GraphAuthentication) (path : String)
    (h : path.length ≠ 0) :
    (loadExistingCredentials true (persistCredentials path c)).credentials = c := by
  rw [persistCredentials, if_neg h]
  simp [loadExistingCredentials, decode_encode]

/-- Witness for C8: round trip of a credential whose strings contain quotes,
backslashes and a newline, through the path `creds`. -/
theorem c8_persist_load_roundtrip_witness :
    ("creds".length ≠ 0) ∧
    (loadExistingCredentials true (persistCredentials "creds"
        { Token := "Bearer", Scope := "a \"b\\c", ExpiresIn := 3600,
          AccessToken := "line1\nline2", RefreshToken := "rt-123" })).credentials =
      { Token := "Bearer", Scope := "a \"b\\c", ExpiresIn := 3600,
        AccessToken := "line1\nline2", RefreshToken := "rt-123" } :=
  ⟨by decide,
   c8_persist_load_roundtrip
     { Token := "Bearer", Scope := "a \"b\\c", ExpiresIn := 3600,
       AccessToken := "line1\nline2", RefreshToken := "rt-123" } "creds" (by decide)⟩

/-- Claim C9 (confirmed): when the startup silent refresh succeeds, `Run`
returns a nil `*CredentialStorage` (modelled as `none`) instead of a handle to
the live store, and the access-token read that `fetchEventsFromOutlook`
performs through that handle dereferences a nil pointer — it can never produce
a `(token, true)` pair. -/
theorem c9_run_nil_handle_on_silent_refresh_success (pe : Bool)
    (file : Option (List (List Char))) (now : Nat) (g : GraphAuthentication)
    (h : (loadExistingCredentials pe file).credentials.RefreshToken.length > 0) :
    (Run pe file now (.response 200 (.ok g))).handle = none ∧
    fetchEventsAccessTokenRead (Run pe file now (.response 200 (.ok g))).handle
      = none := by
  rw [Run, runFromStore, if_pos h]
  simp [refreshTokenHandler, fetchEventsAccessTokenRead]

/-- Witness for C9: a startup that loads the sample persisted credential and
whose silent refresh succeeds returns a nil handle. -/
theorem c9_run_nil_handle_witness :
    (Run true (some (encodeCredentials sampleCredential)) 0
        (.response 200 (.ok sampleCredential))).handle = none ∧
    fetchEventsAccessTokenRead
        (Run true (some (encodeCredentials sampleCredential)) 0
          (.response 200 (.ok sampleCredential))).handle = none :=
  c9_run_nil_handle_on_silent_refresh_success true
    (some (encodeCredentials sampleCredential)) 0 sampleCredential (by decide)

/-- Claim C10 (confirmed): loading a persisted credential at startup never
sets the store's `authenticated` flag — for every configuration and every file
content the loaded store has `authenticated = false` and `GetAccessToken`
reports `false` — and the only operations that can turn `authenticated` from
false to true are the exchanges the code treats as successful (a refresh
exchange with a decodable 200 response, or a callback exchange with a
decodable response body). -/
theorem c10_load_never_authenticates :
    (∀ (p : Bool) (f : Option (List (List Char))),
        (loadExistingCredentials p f).authenticated = false ∧
        (GetAccessToken (loadExistingCredentials p f)).2 = false) ∧
    (∀ (s : CredentialStorage) (now : Nat) (resp : HttpResult),
        (refreshTokenHandler s now resp).store.authenticated = true →
          s.authenticated = true ∨ ∃ g, resp = .response 200 (.ok g)) ∧
    (∀ (s : CredentialStorage) (now : Nat) (resp : HttpResult),
        (callbackHandler s now resp).store.authenticated = true →
          s.authenticated = true ∨ ∃ st g, resp = .response st (.ok g)) := by
  refine ⟨?_, ?_, ?_⟩
  · intro p f
    constructor <;>
      cases p <;> cases f <;>
        simp [loadExistingCredentials, GetAccessToken, emptyCredentialStorage,
          decodeCredentials]
  · intro s now resp ha
    cases resp with
    | transportError => exact Or.inl ha
    | response st b =>
      by_cases hst : st = 200
      · subst hst
        cases b with
        | fail => simp [refreshTokenHandler] at ha
        | ok g => exact Or.inr ⟨g, rfl⟩
      · simp [refreshTokenHandler, hst] at ha
  · intro s now resp ha
    cases resp with
    | transportError => exact Or.inl ha
    | response st b =>
      cases b with
      | fail => exact Or.inl ha
      | ok g => exact Or.inr ⟨st, g, rfl⟩

/-- Witness for C10: the loaded store is unauthenticated, and the implication
for the refresh exchange is discharged at a concrete successful response. -/
theorem c10_load_never_authenticates_witness :
    (loadExistingCredentials true none).authenticated = false ∧
    (emptyCredentialStorage.authenticated = true ∨
      ∃ g, (HttpResult.response 200 (DecodeResult.ok sampleCredential))
        = HttpResult.response 200 (DecodeResult.ok g)) :=
  ⟨(c10_load_never_authenticates.1 true none).1,
   c10_load_never_authenticates.2.1 emptyCredentialStorage 0
     (HttpResult.response 200 (DecodeResult.ok sampleCredential)) (by decide)⟩

end OutlookAuth

